import Mathlib

/-!
Shallow embedding of the history/favorites state manager and the
response-persistence / request-building routines of the
`openrouter_image_edit_example` repository (`src/utility.py`, `src/core.py`),
together with theorems settling the specification's claims about them.

The filesystem is modelled as the list `fs` of paths that currently exist on
disk (`Path(p).exists()` becomes `fs.contains p`).  The settings file content
is modelled by the `Settings` structure; a mutating operation returns
`Option Settings`, where `none` means the source function returned without
calling `save_settings` (so the stored document is unchanged) and `some s'`
means it saved the document `s'`.
-/

namespace ImageEdit

/-- Model of Python `str.strip()` being empty: the source guard
`if not path or path.strip() == ""` holds exactly when every character of
the string is whitespace (in particular when the string is empty). -/
def isBlank (s : String) : Bool :=
  s.toList.all (fun c => c.isWhitespace)

/-- Remove trailing `"` characters from a character list (the tail half of
Python `str.strip('"')`). -/
def stripTrail (l : List Char) : List Char :=
  match l with
  | [] => []
  | a :: t =>
    match stripTrail t with
    | [] => if a == '"' then [] else [a]
    | b :: r => a :: b :: r

/-- Model of Python `path.strip('"')`: remove all leading and all trailing
double-quote characters. -/
def stripQuotes (s : String) : String :=
  String.mk (stripTrail (s.toList.dropWhile (fun c => c == '"')))

/-- Modelled from the claim's words, for comparison with the source's
`stripQuotes` (Python `strip('"')`): strip exactly one layer of enclosing
double-quote characters. -/
def stripOneQuoteLayer (s : String) : String :=
  let cs := s.toList
  if 2 ≤ cs.length ∧ cs.head? = some '"' ∧ cs.getLast? = some '"' then
    String.mk (cs.drop 1).dropLast
  else s

/-- The settings document stored in `settings.json` (§3 of the spec):
history (most-recently-used first), favorites, and the optional caps.
`none` models an absent JSON key, read back through `.get(key, default)`. -/
structure Settings where
  image_path_history : List String
  favorite_image_paths : List String
  max_history_count : Option Nat
  max_gallery_display : Option Nat
deriving DecidableEq, Repr

/-- The default document `{"image_path_history": [], "favorite_image_paths": []}`
returned by `load_settings` on any read failure (utility.py lines 21-30). -/
def default_settings : Settings :=
  { image_path_history := []
    favorite_image_paths := []
    max_history_count := none
    max_gallery_display := none }

/-- The observable states of the settings file that `load_settings` can
encounter: no file, a file whose open/read raises, a file whose content is
not valid JSON, or a file parsing to a document. -/
inductive SettingsFileState where
  | absent
  | unreadable
  | invalidContent
  | valid (doc : Settings)
deriving DecidableEq

/-- `load_settings` of utility.py lines 21-30: if the file exists, try to
parse it, returning the empty default document on any exception; if it does
not exist, return the default document. -/
def load_settings : SettingsFileState → Settings
  | SettingsFileState.absent => default_settings
  | SettingsFileState.unreadable => default_settings
  | SettingsFileState.invalidContent => default_settings
  | SettingsFileState.valid doc => doc

/-- Lines 55-60 of utility.py, applied to the already-quote-stripped path
`q`: remove an existing occurrence (`history.remove` drops the first one),
then insert at the front. -/
def history_after_insert (history : List String) (q : String) : List String :=
  q :: (if history.contains q then history.erase q else history)

/-- Lines 55-64 of utility.py for the already-quote-stripped path `q`:
move-to-front insertion followed by truncation to the configured cap
(`settings.get("max_history_count", 300)`). -/
def capped_insert (s : Settings) (q : String) : List String :=
  (history_after_insert s.image_path_history q).take (s.max_history_count.getD 300)

/-- `add_to_history` of utility.py lines 43-67.  `none`: the function
returned early (blank path, or the quote-stripped path does not exist on
disk) and nothing was saved.  `some s'`: the document `s'` was saved. -/
def add_to_history (fs : List String) (path : String) (s : Settings) :
    Option Settings :=
  if isBlank path then none
  else
    let q := stripQuotes path
    if fs.contains q then some { s with image_path_history := capped_insert s q }
    else none

/-- `get_history_choices` of utility.py lines 70-75: load the document and
return the stored history filtered to paths that exist on disk.  The source
performs no `save_settings` call, so the post-call document (second
component) is the input document unchanged. -/
def get_history_choices (fs : List String) (s : Settings) :
    List String × Settings :=
  (s.image_path_history.filter (fun p => fs.contains p), s)

/-- `add_to_favorites` of utility.py lines 78-94.  `none` means no save:
blank path, nonexistent path, or path already a favorite. -/
def add_to_favorites (fs : List String) (path : String) (s : Settings) :
    Option Settings :=
  if isBlank path then none
  else
    let q := stripQuotes path
    if fs.contains q then
      if s.favorite_image_paths.contains q then none
      else some { s with favorite_image_paths := s.favorite_image_paths ++ [q] }
    else none

/-- `remove_from_favorites` of utility.py lines 97-109: no existence check;
`favorites.remove` drops the first occurrence; no save when absent. -/
def remove_from_favorites (path : String) (s : Settings) : Option Settings :=
  if isBlank path then none
  else
    let q := stripQuotes path
    if s.favorite_image_paths.contains q then
      some { s with favorite_image_paths := s.favorite_image_paths.erase q }
    else none

/-- `is_favorite` of utility.py lines 112-120. -/
def is_favorite (path : String) (s : Settings) : Bool :=
  if isBlank path then false
  else s.favorite_image_paths.contains (stripQuotes path)

/-- The stored document after a call whose result was `none` (no save) or
`some s'` (saved `s'`). -/
def after (r : Option Settings) (s : Settings) : Settings :=
  r.getD s

/-- A sequence of `add_to_history` calls against the same stored file. -/
def run_adds (fs : List String) (paths : List String) (s : Settings) :
    Settings :=
  paths.foldl (fun st p => after (add_to_history fs p st) st) s

/-! ### core.py: base64, data URLs, response persistence, request building -/

/-- The standard base64 alphabet character for a 6-bit value. -/
def b64Char (n : Nat) : Char :=
  "ABCDEFGHIJKLMNOPQRSTUVWXYZabcdefghijklmnopqrstuvwxyz0123456789+/".toList.getD n 'A'

/-- Standard base64 encoding of a byte sequence (Python `base64.b64encode`),
processing three bytes into four characters with `=` padding. -/
def b64encodeList : List Nat → List Char
  | [] => []
  | [a] => [b64Char (a / 4), b64Char (a % 4 * 16), '=', '=']
  | [a, b] => [b64Char (a / 4), b64Char (a % 4 * 16 + b / 16), b64Char (b % 16 * 4), '=']
  | a :: b :: c :: rest =>
    b64Char (a / 4) :: b64Char (a % 4 * 16 + b / 16) ::
      b64Char (b % 16 * 4 + c / 64) :: b64Char (c % 64) :: b64encodeList rest

/-- `base64.b64encode(...).decode('utf-8')` as a string-producing function. -/
def b64encode (bytes : List Nat) : String :=
  String.mk (b64encodeList bytes)

/-- The 6-bit value of a base64 alphabet character, `none` otherwise. -/
def b64CharVal (c : Char) : Option Nat :=
  if 'A' ≤ c ∧ c ≤ 'Z' then some (c.toNat - 'A'.toNat)
  else if 'a' ≤ c ∧ c ≤ 'z' then some (c.toNat - 'a'.toNat + 26)
  else if '0' ≤ c ∧ c ≤ '9' then some (c.toNat - '0'.toNat + 52)
  else if c = '+' then some 62
  else if c = '/' then some 63
  else none

/-- Base64 decoding of canonical (properly padded) base64 text, four
characters at a time; `none` models `base64.b64decode` raising. -/
def b64decodeList : List Char → Option (List Nat)
  | [] => some []
  | [a, b, '=', '='] => do
    let va ← b64CharVal a
    let vb ← b64CharVal b
    some [va * 4 + vb / 16]
  | [a, b, c, '='] => do
    let va ← b64CharVal a
    let vb ← b64CharVal b
    let vc ← b64CharVal c
    some [va * 4 + vb / 16, vb % 16 * 16 + vc / 4]
  | a :: b :: c :: d :: rest => do
    let va ← b64CharVal a
    let vb ← b64CharVal b
    let vc ← b64CharVal c
    let vd ← b64CharVal d
    let more ← b64decodeList rest
    some ((va * 4 + vb / 16) :: (vb % 16 * 16 + vc / 4) :: (vc % 4 * 64 + vd) :: more)
  | _ => none

/-- Model of `base64.b64decode` on a string. -/
def b64decode (s : String) : Option (List Nat) :=
  b64decodeList s.toList

/-- Everything after the first occurrence of `marker` in the character list,
or `none` when the marker does not occur. -/
def findMarkerRest (marker : List Char) : List Char → Option (List Char)
  | [] => none
  | c :: rest =>
    if (c :: rest).take marker.length == marker then some ((c :: rest).drop marker.length)
    else findMarkerRest marker rest

/-- `base64_url_to_base64_image` of core.py lines 29-33: everything after the
first `";base64,"` marker, or the input unchanged when the marker is absent
(Python `split(";base64,", 1)[1]`). -/
def base64_url_to_base64_image (base64_url : String) : String :=
  match findMarkerRest ";base64,".toList base64_url.toList with
  | some rest => String.mk rest
  | none => base64_url

/-- Model of `pathlib.Path.with_suffix`: on the final path component, replace
the trailing `.ext` (when the final component has a dot beyond its first
character) with `suffix`, otherwise append `suffix`. -/
def with_suffix (p : String) (suffix : String) : String :=
  let cs := p.toList
  let name := (cs.reverse.takeWhile (fun c => c != '/')).reverse
  let dir := cs.take (cs.length - name.length)
  let pre := name.reverse.takeWhile (fun c => c != '.')
  let stem := if pre.length + 1 < name.length then name.take (name.length - pre.length - 1) else name
  String.mk (dir ++ stem ++ suffix.toList)

/-- `str.lower()` on a format name, character by character. -/
def lowerString (s : String) : String :=
  String.mk (s.toList.map Char.toLower)

/-- An opened PIL image: its detected container `format` attribute (`none`
models `image.format is None`) and the bytes `image.save` writes for it at
the extension chosen from that format. -/
structure PILImage where
  format : Option String
  saveBytes : List Nat
deriving DecidableEq, Repr

/-- Abstract model of the PIL image library used by core.py:
`openImage bytes` is `PIL.Image.open(BytesIO(bytes))`, `none` when PIL
raises because the bytes are not a recognizable image. -/
structure ImageLib where
  openImage : List Nat → Option PILImage

/-- The exceptions `save_response_images` / `save_base64_url_to_file` can
raise in the modelled fragment. -/
inductive SaveError where
  | indexError
  | base64Error
  | imageOpenError
deriving DecidableEq, Repr

/-- core.py line 45: `image.format.lower() if image.format else 'png'` —
the extension chosen for the output file (a missing or empty format
attribute falls back to `png`). -/
def format_ext (image : PILImage) : String :=
  match image.format with
  | some f => if f = "" then "png" else lowerString f
  | none => "png"

/-- `save_base64_url_to_file` of core.py lines 36-50: extract the base64
payload, decode it, open it with PIL to detect the format, retarget the
output path's suffix to the detected format (lowercased, `png` when the
format attribute is missing or empty), and save the image there.  Returns
the final path and the bytes written (`image.save` writes PIL's re-encoding
of the opened image, not the raw decoded bytes). -/
def save_base64_url_to_file (lib : ImageLib) (base64_url : String)
    (output_path : String) : Except SaveError (String × List Nat) :=
  let base64_image := base64_url_to_base64_image base64_url
  match b64decode base64_image with
  | none => Except.error SaveError.base64Error
  | some image_data =>
    match lib.openImage image_data with
    | none => Except.error SaveError.imageOpenError
    | some image =>
      Except.ok (with_suffix output_path ("." ++ format_ext image), image.saveBytes)

/-- One entry of `choices[0].message.images`: the model keeps the data URL
`image_info["image_url"]["url"]` (the nested dict flattened to that one
field read by core.py line 91). -/
structure ImageInfo where
  url : String
deriving DecidableEq, Repr

/-- The `message` object of a choice; `images` is `none` when the key is
absent (read back through `.get("images", [])`). -/
structure RespMessage where
  images : Option (List ImageInfo)
deriving DecidableEq, Repr

/-- One element of `choices`; `message` is `none` when the key is absent
(read back through `.get("message", {})`). -/
structure RespChoice where
  message : Option RespMessage
deriving DecidableEq, Repr

/-- The parsed JSON body of an API response, restricted to the fields
core.py reads: `id` and `choices` (each `none` when the key is absent). -/
structure ResponseData where
  id : Option String
  choices : Option (List RespChoice)
deriving DecidableEq, Repr

/-- The prompt metadata sidecar content built by the caller (ui.py line
363): `{"text": prompt, "image_paths": valid_image_paths}`. -/
structure PromptInfo where
  text : String
  image_paths : List String
deriving DecidableEq, Repr

/-- A file written to disk by the response persister, tagged by which of the
three kinds of output it is. -/
inductive FileWrite where
  | responseJson (path : String) (data : ResponseData)
  | imageFile (path : String) (content : List Nat)
  | promptYaml (path : String) (info : PromptInfo)
deriving DecidableEq, Repr

/-- The image loop of core.py lines 90-94 (`for idx, image_info in
enumerate(images)`): saves each image in order; on an exception the writes
performed so far are kept and the error is reported. -/
def save_images_loop (lib : ImageLib) (folder stem : String) :
    List ImageInfo → Nat → List FileWrite × Option SaveError
  | [], _ => ([], none)
  | info :: rest, idx =>
    match save_base64_url_to_file lib info.url
        (folder ++ "/" ++ stem ++ "_" ++ toString idx) with
    | Except.error e => ([], some e)
    | Except.ok (path, content) =>
      let (ws, e) := save_images_loop lib folder stem rest (idx + 1)
      (FileWrite.imageFile path content :: ws, e)

/-- `save_response_images` of core.py lines 70-100.  Takes the two
`strftime` renderings of `datetime.now()` as arguments.  Returns the list of
file writes performed, and either the returned output folder or the raised
exception.  The unguarded `response_data.get("choices", [])[0]` happens
before any write, so `choices` missing or empty yields an error with no
writes. -/
def save_response_images (lib : ImageLib) (output_base_folder : String)
    (yyyymmdd_hy : String) (yyyymmddhhmmss : String) (response : ResponseData)
    (prompt_info_data : PromptInfo) : List FileWrite × Except SaveError String :=
  match response.choices.getD [] with
  | [] => ([], Except.error SaveError.indexError)
  | choice0 :: _ =>
    let images := (choice0.message.bind RespMessage.images).getD []
    let id := response.id.getD "unknown_id"
    let today_folder := output_base_folder ++ "/" ++ yyyymmdd_hy
    let stem := yyyymmddhhmmss ++ "_" ++ id
    let jsonWrite :=
      FileWrite.responseJson (today_folder ++ "/" ++ stem ++ "_response.json") response
    match save_images_loop lib today_folder stem images 0 with
    | (imgWrites, some e) => (jsonWrite :: imgWrites, Except.error e)
    | (imgWrites, none) =>
      let yamlWrite :=
        FileWrite.promptYaml (today_folder ++ "/" ++ stem ++ "_prompt_info.yaml")
          prompt_info_data
      (jsonWrite :: imgWrites ++ [yamlWrite], Except.ok today_folder)

/-- `encode_image_to_base64` of core.py lines 16-18, with the file contents
supplied by the abstract filesystem read `fileBytes`. -/
def encode_image_to_base64 (fileBytes : String → List Nat) (image_path : String) :
    String :=
  b64encode (fileBytes image_path)

/-- One element of a message's `content` list. -/
inductive ContentPart where
  | text (t : String)
  | image_url (url : String)
deriving DecidableEq, Repr

/-- One element of the outbound `messages` list. -/
structure ChatMessage where
  role : String
  content : List ContentPart
deriving DecidableEq, Repr

/-- The JSON payload posted to the completion endpoint. -/
structure RequestPayload where
  model : String
  messages : List ChatMessage
  modalities : List String
deriving DecidableEq, Repr

/-- The outbound HTTP request as constructed by `image_generation_request`:
endpoint URL, `Authorization` header value, and JSON payload. -/
structure HttpRequest where
  url : String
  authorization : String
  payload : RequestPayload
deriving DecidableEq, Repr

/-- `image_generation_request` of core.py lines 53-68 (the request
construction; the synchronous post and the `(10, 300)` timeout are the
transport, outside the model).  `openrouter_api_key or
os.getenv('OPENROUTER_API_KEY')` falls back to the environment value when
the argument is falsy (empty); a missing environment variable renders as
Python's `None`. -/
def image_generation_request (messages : List ChatMessage) (model : String)
    (openrouter_api_key : String) (env_api_key : Option String) : HttpRequest :=
  { url := "https://openrouter.ai/api/v1/chat/completions"
    authorization :=
      "Bearer " ++ (if openrouter_api_key ≠ "" then openrouter_api_key
                    else env_api_key.getD "None")
    payload := { model := model, messages := messages, modalities := ["image", "text"] } }

/-- `gemini_pro_3_image_preview_request` of core.py lines 102-125. -/
def gemini_pro_3_image_preview_request (fileBytes : String → List Nat)
    (prompt_text : String) (image_paths : List String)
    (openrouter_api_key : String) (env_api_key : Option String) : HttpRequest :=
  let text_content := ContentPart.text prompt_text
  let image_contents := image_paths.map (fun path =>
    ContentPart.image_url ("data:image/jpeg;base64," ++ encode_image_to_base64 fileBytes path))
  let messages := [{ role := "user", content := text_content :: image_contents }]
  image_generation_request messages "google/gemini-3-pro-image-preview"
    openrouter_api_key env_api_key

/-- `flux_2_pro_image_preview_request` of core.py lines 127-150. -/
def flux_2_pro_image_preview_request (fileBytes : String → List Nat)
    (prompt_text : String) (image_paths : List String)
    (openrouter_api_key : String) (env_api_key : Option String) : HttpRequest :=
  let text_content := ContentPart.text prompt_text
  let image_contents := image_paths.map (fun path =>
    ContentPart.image_url ("data:image/jpeg;base64," ++ encode_image_to_base64 fileBytes path))
  let messages := [{ role := "user", content := text_content :: image_contents }]
  image_generation_request messages "black-forest-labs/flux.2-pro"
    openrouter_api_key env_api_key

/-! ### Helper lemmas -/

theorem contains_iff_mem (l : List String) (a : String) : l.contains a = true ↔ a ∈ l :=
  List.elem_iff

theorem contains_eq_false_iff (l : List String) (a : String) :
    l.contains a = false ↔ a ∉ l := by
  rw [← contains_iff_mem]
  cases l.contains a <;> simp

theorem dropWhile_idem (p : α → Bool) (l : List α) :
    (l.dropWhile p).dropWhile p = l.dropWhile p := by
  induction l with
  | nil => rfl
  | cons a t ih =>
    by_cases h : p a = true
    · simp [List.dropWhile_cons, h, ih]
    · simp [List.dropWhile_cons, h]

theorem stripTrail_idem (l : List Char) : stripTrail (stripTrail l) = stripTrail l := by
  induction l with
  | nil => rfl
  | cons a t ih =>
    cases h : stripTrail t with
    | nil =>
      by_cases hq : (a == '"') = true
      · simp [stripTrail, h, hq]
      · simp only [stripTrail, h]
        rw [if_neg hq]
        simp [stripTrail, hq]
    | cons b r =>
      have hb : stripTrail (b :: r) = b :: r := by rw [← h, ih, h]
      have h2 : stripTrail (a :: t) = a :: b :: r := by
        rw [show stripTrail (a :: t) =
            (match stripTrail t with
             | [] => if a == '"' then [] else [a]
             | b :: r => a :: b :: r) from rfl, h]
      rw [h2,
        show stripTrail (a :: b :: r) =
          (match stripTrail (b :: r) with
           | [] => if a == '"' then [] else [a]
           | c :: r2 => a :: c :: r2) from rfl, hb]

theorem head_not_quote {a : Char} {t : List Char}
    (h : (a :: t).dropWhile (fun c => c == '"') = a :: t) : (a == '"') = false := by
  by_cases hq : (a == '"') = true
  · rw [List.dropWhile_cons, if_pos hq] at h
    have hle := (List.dropWhile_sublist (l := t) (fun c => c == '"')).length_le
    rw [h] at hle
    simp at hle
  · simpa using hq

theorem dropWhile_stripTrail (l : List Char)
    (h : l.dropWhile (fun c => c == '"') = l) :
    (stripTrail l).dropWhile (fun c => c == '"') = stripTrail l := by
  cases l with
  | nil => rfl
  | cons a t =>
    have ha : (a == '"') = false := head_not_quote h
    cases ht : stripTrail t with
    | nil => simp [stripTrail, ht, ha]
    | cons b r => simp [stripTrail, ht, List.dropWhile_cons, ha]

theorem toList_mk (cs : List Char) : (String.mk cs).toList = cs := rfl

theorem mk_toList (s : String) : String.mk s.toList = s := rfl

theorem stripQuotes_idem (s : String) : stripQuotes (stripQuotes s) = stripQuotes s := by
  unfold stripQuotes
  rw [toList_mk,
    dropWhile_stripTrail _ (dropWhile_idem _ _), stripTrail_idem]

theorem ws_not_quote {c : Char} (h : c.isWhitespace = true) : (c == '"') = false := by
  rcases (by simpa [Char.isWhitespace] using h :
      ((c = ' ' ∨ c = '\t') ∨ c = '\r') ∨ c = '\n') with ((hc | hc) | hc) | hc <;>
    subst hc <;> decide

theorem dropWhile_eq_self_of_ws (l : List Char) (h : l.all Char.isWhitespace = true) :
    l.dropWhile (fun c => c == '"') = l := by
  cases l with
  | nil => rfl
  | cons a t =>
    rw [List.all_cons, Bool.and_eq_true] at h
    rw [List.dropWhile_cons, if_neg (by simp [ws_not_quote h.1])]

theorem stripTrail_eq_self_of_ws (l : List Char) (h : l.all Char.isWhitespace = true) :
    stripTrail l = l := by
  induction l with
  | nil => rfl
  | cons a t ih =>
    rw [List.all_cons, Bool.and_eq_true] at h
    obtain ⟨ha, ht⟩ := h
    rw [show stripTrail (a :: t) =
        (match stripTrail t with
         | [] => if a == '"' then [] else [a]
         | b :: r => a :: b :: r) from rfl,
      ih ht]
    cases t with
    | nil => simp [ws_not_quote ha]
    | cons b r => rfl

theorem stripQuotes_of_isBlank (s : String) (h : isBlank s = true) :
    stripQuotes s = s := by
  unfold isBlank at h
  unfold stripQuotes
  rw [dropWhile_eq_self_of_ws _ h, stripTrail_eq_self_of_ws _ h, mk_toList]

theorem history_agree (fs : List String) (s : Settings) (p : String)
    (h : isBlank (stripQuotes p) = isBlank p) :
    add_to_history fs p s = add_to_history fs (stripQuotes p) s := by
  by_cases hb : isBlank p = true
  · rw [stripQuotes_of_isBlank p hb]
  · rw [Bool.not_eq_true] at hb
    have h2 : isBlank (stripQuotes p) = false := by rw [h, hb]
    simp [add_to_history, hb, h2, stripQuotes_idem]

theorem favorites_agree (fs : List String) (s : Settings) (p : String)
    (h : isBlank (stripQuotes p) = isBlank p) :
    add_to_favorites fs p s = add_to_favorites fs (stripQuotes p) s := by
  by_cases hb : isBlank p = true
  · rw [stripQuotes_of_isBlank p hb]
  · rw [Bool.not_eq_true] at hb
    have h2 : isBlank (stripQuotes p) = false := by rw [h, hb]
    simp [add_to_favorites, hb, h2, stripQuotes_idem]

theorem remove_agree (s : Settings) (p : String)
    (h : isBlank (stripQuotes p) = isBlank p) :
    remove_from_favorites p s = remove_from_favorites (stripQuotes p) s := by
  by_cases hb : isBlank p = true
  · rw [stripQuotes_of_isBlank p hb]
  · rw [Bool.not_eq_true] at hb
    have h2 : isBlank (stripQuotes p) = false := by rw [h, hb]
    simp [remove_from_favorites, hb, h2, stripQuotes_idem]

theorem is_favorite_agree (s : Settings) (p : String)
    (h : isBlank (stripQuotes p) = isBlank p) :
    is_favorite p s = is_favorite (stripQuotes p) s := by
  by_cases hb : isBlank p = true
  · rw [stripQuotes_of_isBlank p hb]
  · rw [Bool.not_eq_true] at hb
    have h2 : isBlank (stripQuotes p) = false := by rw [h, hb]
    simp [is_favorite, hb, h2, stripQuotes_idem]

/-! ### Claim theorems -/

/-- C3 counterexample: the code does not strip exactly one layer of enclosing
double quotes — `strip('"')` strips all of them.  With favorites `["x"]`, the
input `""x""` (two quote layers) is reported as a favorite by `is_favorite`,
although stripping exactly one layer yields `"x"`, which is not in the
stored favorites list. -/
theorem claim_C3_counterexample :
    stripOneQuoteLayer "\"\"x\"\"" = "\"x\"" ∧
    is_favorite "\"\"x\"\""
      { image_path_history := [], favorite_image_paths := ["x"],
        max_history_count := none, max_gallery_display := none } = true ∧
    (["x"] : List String).contains (stripOneQuoteLayer "\"\"x\"\"") = false := by
  decide

/-- C3 (amended): before comparison or storage the four functions normalize a
path by stripping ALL enclosing double-quote characters (Python
`strip('"')`), and perform no further normalization; the stripping is
idempotent, whenever stripping does not turn a non-blank path blank each
function treats a path and its stripped form alike, and consequently
`add_to_history('"/a/b.png"')` and `add_to_history('/a/b.png')` coincide. -/
theorem claim_C3_amended (fs : List String) (s : Settings) (p : String)
    (h : isBlank (stripQuotes p) = isBlank p) :
    stripQuotes (stripQuotes p) = stripQuotes p ∧
    add_to_history fs p s = add_to_history fs (stripQuotes p) s ∧
    add_to_favorites fs p s = add_to_favorites fs (stripQuotes p) s ∧
    remove_from_favorites p s = remove_from_favorites (stripQuotes p) s ∧
    is_favorite p s = is_favorite (stripQuotes p) s ∧
    add_to_history fs "\"/a/b.png\"" s = add_to_history fs "/a/b.png" s := by
  refine ⟨stripQuotes_idem p, history_agree fs s p h, favorites_agree fs s p h,
    remove_agree s p h, is_favorite_agree s p h, ?_⟩
  have e : stripQuotes "\"/a/b.png\"" = "/a/b.png" := by decide
  rw [history_agree fs s "\"/a/b.png\"" (by decide), e]

/-- C3 witness: the amended claim at the concrete path `"/a/b.png"`. -/
theorem claim_C3_witness :
    isBlank (stripQuotes "\"/a/b.png\"") = isBlank "\"/a/b.png\"" ∧
    add_to_history ["/a/b.png"] "\"/a/b.png\"" default_settings =
      add_to_history ["/a/b.png"] "/a/b.png" default_settings :=
  ⟨by decide,
   (claim_C3_amended ["/a/b.png"] default_settings "\"/a/b.png\"" (by decide)).2.2.2.2.2⟩

/-- C4: for every input path that is empty, blank, or (after quote-stripping)
does not exist on disk, `add_to_history` and `add_to_favorites` return
without saving (`none`): the stored history and favorites lists are left
unchanged. -/
theorem claim_C4 (fs : List String) (p : String) (s : Settings)
    (h : isBlank p = true ∨ fs.contains (stripQuotes p) = false) :
    add_to_history fs p s = none ∧ add_to_favorites fs p s = none := by
  rcases h with h | h
  · simp [add_to_history, add_to_favorites, h]
  · by_cases hb : isBlank p = true
    · simp [add_to_history, add_to_favorites, hb]
    · rw [Bool.not_eq_true] at hb
      have h' : stripQuotes p ∉ fs := (contains_eq_false_iff _ _).1 h
      simp [add_to_history, add_to_favorites, hb, h, h']

/-- C4 witness: a quoted path whose stripped form does not exist on disk. -/
theorem claim_C4_witness :
    (isBlank "\"/missing.png\"" = true ∨
      (["/other.png"] : List String).contains (stripQuotes "\"/missing.png\"") = false) ∧
    add_to_history ["/other.png"] "\"/missing.png\"" default_settings = none ∧
    add_to_favorites ["/other.png"] "\"/missing.png\"" default_settings = none :=
  ⟨Or.inr (by decide),
   (claim_C4 ["/other.png"] "\"/missing.png\"" default_settings (Or.inr (by decide))).1,
   (claim_C4 ["/other.png"] "\"/missing.png\"" default_settings (Or.inr (by decide))).2⟩

/-- C6: `get_history_choices` leaves the stored settings document unchanged
(the source performs no save), and its returned view is the stored history
restricted to paths existing on disk, in stored order (a sublist), with
membership exactly characterized; stale entries stay in the document. -/
theorem claim_C6 (fs : List String) (s : Settings) :
    (get_history_choices fs s).2 = s ∧
    ((get_history_choices fs s).1).Sublist s.image_path_history ∧
    ∀ p : String, p ∈ (get_history_choices fs s).1 ↔
      p ∈ s.image_path_history ∧ fs.contains p = true := by
  refine ⟨rfl, List.filter_sublist _, fun p => ?_⟩
  simp [get_history_choices, List.mem_filter]

/-- C7: `load_settings` is total over the modelled file states, and on every
failure state (absent, unreadable, invalid content) it returns the empty
default document. -/
theorem claim_C7 (st : SettingsFileState)
    (h : st = SettingsFileState.absent ∨ st = SettingsFileState.unreadable ∨
      st = SettingsFileState.invalidContent) :
    load_settings st = default_settings ∧
    (load_settings st).image_path_history = [] ∧
    (load_settings st).favorite_image_paths = [] := by
  rcases h with rfl | rfl | rfl <;> exact ⟨rfl, rfl, rfl⟩

/-- C7 witness: the absent-file state. -/
theorem claim_C7_witness :
    load_settings SettingsFileState.absent = default_settings ∧
    (load_settings SettingsFileState.absent).image_path_history = [] ∧
    (load_settings SettingsFileState.absent).favorite_image_paths = [] :=
  claim_C7 SettingsFileState.absent (Or.inl rfl)

theorem add_to_history_eq_some {fs : List String} {p : String} {s s' : Settings}
    (h : add_to_history fs p s = some s') :
    isBlank p = false ∧ fs.contains (stripQuotes p) = true ∧
    s' = { s with image_path_history := capped_insert s (stripQuotes p) } := by
  by_cases hb : isBlank p = true
  · simp [add_to_history, hb] at h
  · rw [Bool.not_eq_true] at hb
    by_cases hc : fs.contains (stripQuotes p) = true
    · have hm : stripQuotes p ∈ fs := (contains_iff_mem _ _).1 hc
      refine ⟨hb, hc, ?_⟩
      simp [add_to_history, hb, hm] at h
      exact h.symm
    · rw [Bool.not_eq_true] at hc
      have hm : stripQuotes p ∉ fs := (contains_eq_false_iff _ _).1 hc
      simp [add_to_history, hb, hm] at h

/-- C1 counterexample: a file whose name is a single space character can
exist on disk, but `add_to_history` rejects the blank path, so immediately
afterwards `get_history_choices()` does not return it at index 0. -/
theorem claim_C1_counterexample :
    ([" "] : List String).contains " " = true ∧
    (get_history_choices [" "]
        (after (add_to_history [" "] " " default_settings) default_settings)).1.head? ≠
      some " " := by
  decide

/-- C1 (amended): for every non-blank path `p` carrying no enclosing
double quotes that exists on disk, and a configured history cap of at least
one, `add_to_history(p)` saves a document on whose view
`get_history_choices()` returns `p` at index 0; and if `p` was already in
history the saved history is no longer than before. -/
theorem claim_C1_amended (fs : List String) (s : Settings) (p : String)
    (hb : isBlank p = false) (hq : stripQuotes p = p) (hex : fs.contains p = true)
    (hcap : 1 ≤ s.max_history_count.getD 300) :
    ∃ s', add_to_history fs p s = some s' ∧
      ((get_history_choices fs s').1).head? = some p ∧
      (p ∈ s.image_path_history →
        s'.image_path_history.length ≤ s.image_path_history.length) := by
  have hmfs : p ∈ fs := (contains_iff_mem _ _).1 hex
  have hstep : add_to_history fs p s =
      some { s with image_path_history := capped_insert s p } := by
    simp [add_to_history, hb, hq, hmfs]
  refine ⟨_, hstep, ?_, ?_⟩
  · obtain ⟨k, hk⟩ : ∃ k, s.max_history_count.getD 300 = k + 1 :=
      ⟨s.max_history_count.getD 300 - 1, by omega⟩
    simp only [get_history_choices, capped_insert, history_after_insert]
    rw [hk, List.take_succ_cons, List.filter_cons_of_pos (by simpa using hex),
      List.head?_cons]
  · intro hmem
    have h1 : 0 < s.image_path_history.length :=
      List.length_pos.mpr (List.ne_nil_of_mem hmem)
    show (capped_insert s p).length ≤ s.image_path_history.length
    calc (capped_insert s p).length
        ≤ (history_after_insert s.image_path_history p).length :=
          (List.take_sublist _ _).length_le
      _ ≤ s.image_path_history.length := by
          rw [show history_after_insert s.image_path_history p =
              p :: s.image_path_history.erase p from by
            simp [history_after_insert, hmem]]
          rw [List.length_cons, List.length_erase_of_mem hmem]
          omega

/-- C1 witness: the amended claim on a one-entry filesystem and the empty
settings document. -/
theorem claim_C1_witness :
    isBlank "/tmp/x.png" = false ∧ stripQuotes "/tmp/x.png" = "/tmp/x.png" ∧
    (["/tmp/x.png"] : List String).contains "/tmp/x.png" = true ∧
    1 ≤ default_settings.max_history_count.getD 300 ∧
    (∃ s', add_to_history ["/tmp/x.png"] "/tmp/x.png" default_settings = some s' ∧
      ((get_history_choices ["/tmp/x.png"] s').1).head? = some "/tmp/x.png" ∧
      ("/tmp/x.png" ∈ default_settings.image_path_history →
        s'.image_path_history.length ≤ default_settings.image_path_history.length)) :=
  ⟨by decide, by decide, by decide, by decide,
   claim_C1_amended ["/tmp/x.png"] default_settings "/tmp/x.png"
     (by decide) (by decide) (by decide) (by decide)⟩

theorem run_adds_inv (fs : List String) (paths : List String) :
    ∀ s : Settings, s.image_path_history.length ≤ s.max_history_count.getD 300 →
      (run_adds fs paths s).max_history_count = s.max_history_count ∧
      (run_adds fs paths s).image_path_history.length ≤ s.max_history_count.getD 300 := by
  induction paths with
  | nil => exact fun s h => ⟨rfl, h⟩
  | cons p rest ih =>
    intro s h
    have hstep : run_adds fs (p :: rest) s =
        run_adds fs rest (after (add_to_history fs p s) s) := rfl
    rw [hstep]
    cases hadd : add_to_history fs p s with
    | none => simpa [after] using ih s h
    | some s₁ =>
      obtain ⟨-, -, rfl⟩ := add_to_history_eq_some hadd
      simpa [after] using
        ih { s with image_path_history := capped_insert s (stripQuotes p) }
          (List.length_take_le _ _)

/-- C2: starting from a stored history within the configured cap
(`max_history_count`, default 300), no sequence of `add_to_history` calls
ever leaves a stored history longer than the cap; and a saving call
truncates exactly by dropping a suffix (the oldest, tail entries) of the
pre-truncation most-recently-used-first list. -/
theorem claim_C2 (fs : List String) (s : Settings) (paths : List String)
    (p : String) (s' : Settings)
    (hlen : s.image_path_history.length ≤ s.max_history_count.getD 300)
    (hstep : add_to_history fs p s = some s') :
    (run_adds fs paths s).image_path_history.length ≤ s.max_history_count.getD 300 ∧
    s'.image_path_history ++
        (history_after_insert s.image_path_history (stripQuotes p)).drop
          (s.max_history_count.getD 300) =
      history_after_insert s.image_path_history (stripQuotes p) := by
  refine ⟨(run_adds_inv fs paths s hlen).2, ?_⟩
  obtain ⟨-, -, rfl⟩ := add_to_history_eq_some hstep
  exact List.take_append_drop _ _

/-- C2 witness: spec scenario B — cap 2, history `["/b", "/a"]`, adding an
existing `/c` evicts the oldest entry `/a`. -/
theorem claim_C2_witness :
    (run_adds ["/a", "/b", "/c"] ["/c"]
        { image_path_history := ["/b", "/a"], favorite_image_paths := [],
          max_history_count := some 2,
          max_gallery_display := none }).image_path_history.length ≤
      (Settings.max_history_count
        { image_path_history := ["/b", "/a"], favorite_image_paths := [],
          max_history_count := some 2, max_gallery_display := none }).getD 300 ∧
    (Settings.image_path_history
        { image_path_history := ["/c", "/b"], favorite_image_paths := [],
          max_history_count := some 2, max_gallery_display := none }) ++
        (history_after_insert ["/b", "/a"] (stripQuotes "/c")).drop
          ((some 2 : Option Nat).getD 300) =
      history_after_insert ["/b", "/a"] (stripQuotes "/c") :=
  claim_C2 ["/a", "/b", "/c"]
    { image_path_history := ["/b", "/a"], favorite_image_paths := [],
      max_history_count := some 2, max_gallery_display := none }
    ["/c"] "/c"
    { image_path_history := ["/c", "/b"], favorite_image_paths := [],
      max_history_count := some 2, max_gallery_display := none }
    (by decide) (by decide)

/-- C5 counterexample: a file named by a single space character exists on
disk, but `add_to_favorites` rejects the blank path, so `is_favorite`
afterwards is false, not true. -/
theorem claim_C5_counterexample :
    ([" "] : List String).contains " " = true ∧
    is_favorite " "
        (after (add_to_favorites [" "] " " default_settings) default_settings) =
      false := by
  decide

/-- C5 (amended): for every non-blank, quote-free path `p` that exists on
disk, over a duplicate-free stored favorites list: `add_to_favorites(p)`
then `is_favorite(p)` is true; `remove_from_favorites(p)` then
`is_favorite(p)` is false; adding an already-present favorite and removing
an absent one both return without saving. -/
theorem claim_C5_amended (fs : List String) (s : Settings) (p : String)
    (hb : isBlank p = false) (hq : stripQuotes p = p) (hex : fs.contains p = true)
    (hnd : s.favorite_image_paths.Nodup) :
    is_favorite p (after (add_to_favorites fs p s) s) = true ∧
    is_favorite p (after (remove_from_favorites p s) s) = false ∧
    (s.favorite_image_paths.contains p = true → add_to_favorites fs p s = none) ∧
    (s.favorite_image_paths.contains p = false → remove_from_favorites p s = none) := by
  have hmfs : p ∈ fs := (contains_iff_mem _ _).1 hex
  refine ⟨?_, ?_, fun hc => ?_, fun hc => ?_⟩
  · by_cases hc : s.favorite_image_paths.contains p = true
    · have hcm : p ∈ s.favorite_image_paths := (contains_iff_mem _ _).1 hc
      simp [add_to_favorites, is_favorite, after, hb, hq, hmfs, hcm]
    · rw [Bool.not_eq_true] at hc
      have hcn : p ∉ s.favorite_image_paths := (contains_eq_false_iff _ _).1 hc
      have hadd : add_to_favorites fs p s =
          some { s with favorite_image_paths := s.favorite_image_paths ++ [p] } := by
        simp [add_to_favorites, hb, hq, hmfs, hcn]
      rw [hadd]
      simp [after, is_favorite, hb, hq]
  · by_cases hc : s.favorite_image_paths.contains p = true
    · have hcm : p ∈ s.favorite_image_paths := (contains_iff_mem _ _).1 hc
      have hrem : remove_from_favorites p s =
          some { s with favorite_image_paths := s.favorite_image_paths.erase p } := by
        simp [remove_from_favorites, hb, hq, hcm]
      rw [hrem]
      have hne : p ∉ s.favorite_image_paths.erase p := fun hm =>
        ((List.Nodup.mem_erase_iff hnd).1 hm).1 rfl
      simp [after, is_favorite, hb, hq, hne]
    · rw [Bool.not_eq_true] at hc
      have hcn : p ∉ s.favorite_image_paths := (contains_eq_false_iff _ _).1 hc
      have hrem : remove_from_favorites p s = none := by
        simp [remove_from_favorites, hb, hq, hcn]
      rw [hrem]
      simp [after, is_favorite, hb, hq, hcn]
  · have hcm : p ∈ s.favorite_image_paths := (contains_iff_mem _ _).1 hc
    simp [add_to_favorites, hb, hq, hmfs, hcm]
  · have hcn : p ∉ s.favorite_image_paths := (contains_eq_false_iff _ _).1 hc
    simp [remove_from_favorites, hb, hq, hcn]

/-- C5 witness: the amended claim on a one-entry filesystem and the empty
settings document. -/
theorem claim_C5_witness :
    isBlank "/x.png" = false ∧ stripQuotes "/x.png" = "/x.png" ∧
    (["/x.png"] : List String).contains "/x.png" = true ∧
    default_settings.favorite_image_paths.Nodup ∧
    (is_favorite "/x.png"
        (after (add_to_favorites ["/x.png"] "/x.png" default_settings)
          default_settings) = true ∧
    is_favorite "/x.png"
        (after (remove_from_favorites "/x.png" default_settings)
          default_settings) = false ∧
    (default_settings.favorite_image_paths.contains "/x.png" = true →
      add_to_favorites ["/x.png"] "/x.png" default_settings = none) ∧
    (default_settings.favorite_image_paths.contains "/x.png" = false →
      remove_from_favorites "/x.png" default_settings = none)) :=
  ⟨by decide, by decide, by decide, by decide,
    claim_C5_amended ["/x.png"] default_settings "/x.png"
      (by decide) (by decide) (by decide) (by decide)⟩

/-- C8 counterexample: `save_base64_url_to_file` writes the image library's
re-encoding of the decoded image (`image.save`), not the decoded payload
bytes themselves; with a library whose serialization differs from the
original bytes, the one written image file differs from the base64-decoded
payload, so the byte-equality part of the claim fails. -/
theorem claim_C8_counterexample :
    b64decode (base64_url_to_base64_image "data:image/png;base64,AAAA") =
      some [0, 0, 0] ∧
    (save_response_images ⟨fun _ => some ⟨some "PNG", []⟩⟩ "out" "2026-10-12"
        "20261012000000"
        ⟨some "id1", some [⟨some ⟨some [⟨"data:image/png;base64,AAAA"⟩]⟩⟩]⟩
        ⟨"p", []⟩).1 =
      [FileWrite.responseJson "out/2026-10-12/20261012000000_id1_response.json"
        ⟨some "id1", some [⟨some ⟨some [⟨"data:image/png;base64,AAAA"⟩]⟩⟩]⟩,
       FileWrite.imageFile "out/2026-10-12/20261012000000_id1_0.png" [],
       FileWrite.promptYaml "out/2026-10-12/20261012000000_id1_prompt_info.yaml"
        ⟨"p", []⟩] ∧
    ([] : List Nat) ≠ [0, 0, 0] := by
  decide

/-- C8 (amended): for a response whose `choices[0].message.images` holds
exactly one data-URL image that decodes and opens successfully,
`save_response_images` writes exactly one image file, one response sidecar
and one prompt-info sidecar, and returns the dated output directory; the
bytes of the written image file are the image library's serialization of
the image decoded from the payload (equal to the raw decoded payload only
when the library's save reproduces its input bytes). -/
theorem claim_C8_amended (lib : ImageLib) (base dateStr timeStr : String)
    (resp : ResponseData) (pinfo : PromptInfo) (choice0 : RespChoice)
    (m : RespMessage) (info : ImageInfo) (data : List Nat) (img : PILImage)
    (hch : resp.choices = some [choice0])
    (hm : choice0.message = some m)
    (him : m.images = some [info])
    (hdec : b64decode (base64_url_to_base64_image info.url) = some data)
    (hopen : lib.openImage data = some img) :
    save_response_images lib base dateStr timeStr resp pinfo =
      ([FileWrite.responseJson
          (base ++ "/" ++ dateStr ++ "/" ++
            (timeStr ++ "_" ++ resp.id.getD "unknown_id") ++ "_response.json") resp,
        FileWrite.imageFile
          (with_suffix
            (base ++ "/" ++ dateStr ++ "/" ++
              (timeStr ++ "_" ++ resp.id.getD "unknown_id") ++ "_" ++ toString 0)
            ("." ++ format_ext img)) img.saveBytes,
        FileWrite.promptYaml
          (base ++ "/" ++ dateStr ++ "/" ++
            (timeStr ++ "_" ++ resp.id.getD "unknown_id") ++ "_prompt_info.yaml")
          pinfo],
       Except.ok (base ++ "/" ++ dateStr)) := by
  simp only [save_response_images, hch, Option.getD_some, hm, Option.some_bind, him,
    save_images_loop, save_base64_url_to_file, hdec, hopen]
  rfl

/-- C8 witness: the amended claim at a concrete one-image PNG response. -/
theorem claim_C8_witness :
    (ResponseData.choices ⟨some "id1", some [⟨some ⟨some [⟨"data:image/png;base64,AAAA"⟩]⟩⟩]⟩ =
      some [⟨some ⟨some [⟨"data:image/png;base64,AAAA"⟩]⟩⟩]) ∧
    (RespChoice.message ⟨some ⟨some [⟨"data:image/png;base64,AAAA"⟩]⟩⟩ =
      some ⟨some [⟨"data:image/png;base64,AAAA"⟩]⟩) ∧
    (RespMessage.images ⟨some [⟨"data:image/png;base64,AAAA"⟩]⟩ =
      some [⟨"data:image/png;base64,AAAA"⟩]) ∧
    b64decode (base64_url_to_base64_image
      (ImageInfo.url ⟨"data:image/png;base64,AAAA"⟩)) = some [0, 0, 0] ∧
    (ImageLib.openImage ⟨fun _ => some ⟨some "PNG", [9, 9]⟩⟩ [0, 0, 0] =
      some ⟨some "PNG", [9, 9]⟩) ∧
    save_response_images ⟨fun _ => some ⟨some "PNG", [9, 9]⟩⟩ "out" "2026-10-12"
        "20261012000000"
        ⟨some "id1", some [⟨some ⟨some [⟨"data:image/png;base64,AAAA"⟩]⟩⟩]⟩
        ⟨"p", ["/a"]⟩ =
      ([FileWrite.responseJson
          ("out" ++ "/" ++ "2026-10-12" ++ "/" ++
            ("20261012000000" ++ "_" ++
              (ResponseData.id ⟨some "id1",
                some [⟨some ⟨some [⟨"data:image/png;base64,AAAA"⟩]⟩⟩]⟩).getD "unknown_id") ++
            "_response.json")
          ⟨some "id1", some [⟨some ⟨some [⟨"data:image/png;base64,AAAA"⟩]⟩⟩]⟩,
        FileWrite.imageFile
          (with_suffix
            ("out" ++ "/" ++ "2026-10-12" ++ "/" ++
              ("20261012000000" ++ "_" ++
                (ResponseData.id ⟨some "id1",
                  some [⟨some ⟨some [⟨"data:image/png;base64,AAAA"⟩]⟩⟩]⟩).getD "unknown_id") ++
              "_" ++ toString 0)
            ("." ++ format_ext ⟨some "PNG", [9, 9]⟩))
          (PILImage.saveBytes ⟨some "PNG", [9, 9]⟩),
        FileWrite.promptYaml
          ("out" ++ "/" ++ "2026-10-12" ++ "/" ++
            ("20261012000000" ++ "_" ++
              (ResponseData.id ⟨some "id1",
                some [⟨some ⟨some [⟨"data:image/png;base64,AAAA"⟩]⟩⟩]⟩).getD "unknown_id") ++
            "_prompt_info.yaml")
          ⟨"p", ["/a"]⟩],
       Except.ok ("out" ++ "/" ++ "2026-10-12")) :=
  ⟨rfl, rfl, rfl, by decide, rfl,
   claim_C8_amended ⟨fun _ => some ⟨some "PNG", [9, 9]⟩⟩ "out" "2026-10-12"
     "20261012000000"
     ⟨some "id1", some [⟨some ⟨some [⟨"data:image/png;base64,AAAA"⟩]⟩⟩]⟩
     ⟨"p", ["/a"]⟩ ⟨some ⟨some [⟨"data:image/png;base64,AAAA"⟩]⟩⟩
     ⟨some [⟨"data:image/png;base64,AAAA"⟩]⟩ ⟨"data:image/png;base64,AAAA"⟩
     [0, 0, 0] ⟨some "PNG", [9, 9]⟩ rfl rfl rfl (by decide) rfl⟩

/-- C9: for every prompt text, ordered list of image paths, API key and
environment fallback (and any file contents), the two request builders
construct identical outbound requests — a single user message with the text
part followed by the image attachments in input order — differing only in
the model identifier string sent. -/
theorem claim_C9 (fileBytes : String → List Nat) (prompt_text : String)
    (image_paths : List String) (key : String) (env : Option String) :
    (gemini_pro_3_image_preview_request fileBytes prompt_text image_paths key env).url =
      (flux_2_pro_image_preview_request fileBytes prompt_text image_paths key env).url ∧
    (gemini_pro_3_image_preview_request fileBytes prompt_text image_paths key env).authorization =
      (flux_2_pro_image_preview_request fileBytes prompt_text image_paths key env).authorization ∧
    (gemini_pro_3_image_preview_request fileBytes prompt_text image_paths key env).payload.messages =
      (flux_2_pro_image_preview_request fileBytes prompt_text image_paths key env).payload.messages ∧
    (gemini_pro_3_image_preview_request fileBytes prompt_text image_paths key env).payload.modalities =
      (flux_2_pro_image_preview_request fileBytes prompt_text image_paths key env).payload.modalities ∧
    (gemini_pro_3_image_preview_request fileBytes prompt_text image_paths key env).payload.model =
      "google/gemini-3-pro-image-preview" ∧
    (flux_2_pro_image_preview_request fileBytes prompt_text image_paths key env).payload.model =
      "black-forest-labs/flux.2-pro" ∧
    (gemini_pro_3_image_preview_request fileBytes prompt_text image_paths key env).payload.messages =
      [{ role := "user",
         content := ContentPart.text prompt_text ::
           image_paths.map (fun path => ContentPart.image_url
             ("data:image/jpeg;base64," ++ encode_image_to_base64 fileBytes path)) }] :=
  ⟨rfl, rfl, rfl, rfl, rfl, rfl, rfl⟩

/-- C10: when the response's `choices` list is missing or empty,
`save_response_images` raises (the unguarded `choices[0]`) before writing
anything; when at least one choice is present and its message carries no
images, nothing is raised and exactly the response sidecar and the
prompt-info sidecar are written, returning the dated directory. -/
theorem claim_C10 (lib : ImageLib) (base dateStr timeStr : String)
    (resp : ResponseData) (pinfo : PromptInfo) :
    (resp.choices.getD [] = [] →
      save_response_images lib base dateStr timeStr resp pinfo =
        ([], Except.error SaveError.indexError)) ∧
    (∀ choice0 rest, resp.choices = some (choice0 :: rest) →
      (choice0.message.bind RespMessage.images).getD [] = [] →
      save_response_images lib base dateStr timeStr resp pinfo =
        ([FileWrite.responseJson
            (base ++ "/" ++ dateStr ++ "/" ++
              (timeStr ++ "_" ++ resp.id.getD "unknown_id") ++ "_response.json") resp,
          FileWrite.promptYaml
            (base ++ "/" ++ dateStr ++ "/" ++
              (timeStr ++ "_" ++ resp.id.getD "unknown_id") ++ "_prompt_info.yaml")
            pinfo],
         Except.ok (base ++ "/" ++ dateStr))) := by
  constructor
  · intro h
    simp only [save_response_images, h]
  · intro choice0 rest hch him
    simp only [save_response_images, hch, Option.getD_some, him, save_images_loop]
    rfl

/-- C10 witness: a response with `choices` absent errors with no writes; a
response with one image-less choice yields exactly the two sidecars. -/
theorem claim_C10_witness :
    ((ResponseData.choices ⟨none, none⟩).getD [] = [] →
      save_response_images ⟨fun _ => none⟩ "out" "d" "t" ⟨none, none⟩ ⟨"p", []⟩ =
        ([], Except.error SaveError.indexError)) ∧
    save_response_images ⟨fun _ => none⟩ "out" "d" "t" ⟨none, none⟩ ⟨"p", []⟩ =
      ([], Except.error SaveError.indexError) ∧
    save_response_images ⟨fun _ => none⟩ "out" "d" "t" ⟨some "i", some [⟨none⟩]⟩
        ⟨"p", []⟩ =
      ([FileWrite.responseJson
          ("out" ++ "/" ++ "d" ++ "/" ++
            ("t" ++ "_" ++ (ResponseData.id ⟨some "i", some [⟨none⟩]⟩).getD "unknown_id") ++
            "_response.json")
          ⟨some "i", some [⟨none⟩]⟩,
        FileWrite.promptYaml
          ("out" ++ "/" ++ "d" ++ "/" ++
            ("t" ++ "_" ++ (ResponseData.id ⟨some "i", some [⟨none⟩]⟩).getD "unknown_id") ++
            "_prompt_info.yaml")
          ⟨"p", []⟩],
       Except.ok ("out" ++ "/" ++ "d")) :=
  ⟨(claim_C10 ⟨fun _ => none⟩ "out" "d" "t" ⟨none, none⟩ ⟨"p", []⟩).1,
   (claim_C10 ⟨fun _ => none⟩ "out" "d" "t" ⟨none, none⟩ ⟨"p", []⟩).1 rfl,
   (claim_C10 ⟨fun _ => none⟩ "out" "d" "t" ⟨some "i", some [⟨none⟩]⟩ ⟨"p", []⟩).2
     ⟨none⟩ [] rfl rfl⟩

end ImageEdit
